import Mathlib

/-!
Verification development for the direct-to-storage upload broker
(`core/storage.py`, `core/views.py`, `core/models.py`, `core/urls.py`).

The Python code is shallowly embedded: pure helpers become Lean functions,
Django ORM state (the `UploadTransaction` table and the local file store)
becomes explicit state passed in and out of the view functions, and
external SDK calls (boto3 presigning, S3 head-object probes, GCS and Azure
signing) become oracle fields of an `Env` record, since their results are
decided outside the repository.  Exceptions become `Except String`.
-/

namespace Upload

/-- Embeds Python `os.path.basename` (POSIX): everything after the last
slash of the path, i.e. the longest slash-free suffix. -/
def basename (p : String) : String :=
  ⟨(p.data.reverse.takeWhile (fun c => c != '/')).reverse⟩

/-- Embeds the `UploadConfig` NamedTuple of `core/storage.py`. -/
structure UploadConfig where
  url : String
  method : String
  headers : List (String × String) := []
  data : List (String × String) := []
deriving DecidableEq, Repr

/-- Oracle environment: Django settings consulted by the code, plus the
outcomes of external SDK calls.  `aws_head_object key = true` means the
`head_object` probe for `key` returns without raising; any exception path
of the probe is `false`, exactly as the bare `except:` in `_check_aws`
collapses them.  The signing oracles return the produced URL or token, or
the exception message the SDK raised. -/
structure Env where
  storage_backend : String := "local"
  boto3_available : Bool := true
  gcs_available : Bool := true
  azure_available : Bool := true
  aws_presign : String → String → Int → Except String String := fun k _ _ => .ok k
  aws_head_object : String → Bool := fun _ => false
  gcs_sign : String → String → Except String String := fun k _ => .ok k
  azure_sas : String → Except String String := fun _ => .ok "sas"
  azure_account_name : String := "acct"
  azure_container : String := "container"
  base_url : Option String := none

/-- Embeds `CloudStorageService._generate_key`:
`uploads/{transaction_id}/{os.path.basename(filename)}`. -/
def _generate_key (transaction_id : String) (filename : String) : String :=
  "uploads/" ++ transaction_id ++ "/" ++ basename filename

/-- Embeds `CloudStorageService._get_aws_presigned_url`.  A missing boto3
raises ImportError; a signing failure is logged and re-raised. -/
def _get_aws_presigned_url (env : Env) (key content_type : String)
    (file_size : Int) : Except String UploadConfig :=
  if !env.boto3_available then .error "boto3 is not installed"
  else
    match env.aws_presign key content_type file_size with
    | .ok url => .ok { url := url, method := "PUT",
                       headers := [("Content-Type", content_type)] }
    | .error e => .error e

/-- Embeds `CloudStorageService._get_gcs_signed_url`. -/
def _get_gcs_signed_url (env : Env) (key content_type : String) :
    Except String UploadConfig :=
  if !env.gcs_available then .error "google-cloud-storage is not installed"
  else
    match env.gcs_sign key content_type with
    | .ok url => .ok { url := url, method := "PUT",
                       headers := [("Content-Type", content_type)] }
    | .error e => .error e

/-- Embeds `CloudStorageService._get_azure_sas_url`, including the
mandatory BlockBlob header. -/
def _get_azure_sas_url (env : Env) (key content_type : String) :
    Except String UploadConfig :=
  if !env.azure_available then .error "azure-storage-blob is not installed"
  else
    match env.azure_sas key with
    | .ok sas_token =>
        .ok { url := "https://" ++ env.azure_account_name
                      ++ ".blob.core.windows.net/" ++ env.azure_container
                      ++ "/" ++ key ++ "?" ++ sas_token,
              method := "PUT",
              headers := [("Content-Type", content_type),
                          ("x-ms-blob-type", "BlockBlob")] }
    | .error e => .error e

/-- Embeds `reverse('api:local-upload', ...)` for the route
`local/<uuid:transaction_id>/` of `core/urls.py`; the site mount point is
not under `src/`, so the absolute prefix follows the comment in
`_get_local_upload_url` (`/api/upload/local/<transaction_id>/`). -/
def reverse_local_upload (transaction_id : String) : String :=
  "/api/upload/local/" ++ transaction_id ++ "/"

/-- Embeds `CloudStorageService._get_local_upload_url`: a host-relative
URL into this service, absolutized when `BASE_URL` is configured. -/
def _get_local_upload_url (env : Env) (transaction_id : String) :
    UploadConfig :=
  let url := reverse_local_upload transaction_id
  let full_url := match env.base_url with
    | some b => b ++ url
    | none => url
  { url := full_url, method := "PUT" }

/-- Embeds `CloudStorageService.generate_upload_config`: derive the key,
then dispatch on the configured backend; anything other than aws, gcs or
azure falls through to the local branch. -/
def generate_upload_config (env : Env) (transaction_id filename
    content_type : String) (file_size : Int) : Except String UploadConfig :=
  let key := _generate_key transaction_id filename
  if env.storage_backend == "aws" then
    _get_aws_presigned_url env key content_type file_size
  else if env.storage_backend == "gcs" then
    _get_gcs_signed_url env key content_type
  else if env.storage_backend == "azure" then
    _get_azure_sas_url env key content_type
  else
    .ok (_get_local_upload_url env transaction_id)

/-- Embeds `CloudStorageService._check_aws`: false when boto3 is missing,
otherwise the result of the `head_object` probe with every exception
collapsed to false by the bare `except:`. -/
def _check_aws (env : Env) (key : String) : Bool :=
  if !env.boto3_available then false else env.aws_head_object key

/-- Embeds `CloudStorageService.check_exists`.  Only `aws` and `default`
are dispatched; `default` calls `self._check_local`, a method that is not
defined anywhere in the class, so that branch raises `AttributeError`
(modelled as `.error`); every other backend, including the default
`local`, falls through to the literal `return True`. -/
def check_exists (env : Env) (key : String) : Except String Bool :=
  if env.storage_backend == "aws" then .ok (_check_aws env key)
  else if env.storage_backend == "default" then
    .error "AttributeError: CloudStorageService has no attribute check local"
  else .ok true

/-- Embeds `UploadTransaction.Status` of `core/models.py`. -/
inductive Status where
  | PENDING
  | COMPLETED
  | FAILED
deriving DecidableEq, Repr

/-- Embeds the `UploadTransaction` model row of `core/models.py`.  UUIDs
and user references are strings; timestamps are abstract ticks. -/
structure UploadTransaction where
  id : String
  user : String
  object_key : String := ""
  filename : String
  file_size : Int
  content_type : String
  status : Status := .PENDING
  completed_at : Option Nat := none
  backend_used : String := "local"
deriving DecidableEq, Repr

/-- The transaction table, the sole persistent state of the views. -/
abbrev Store := List UploadTransaction

/-- Embeds `get_object_or_404(UploadTransaction, id=transaction_id,
user=request.user)`: the first row matching both filters, or the Http404
path (`none`). -/
def get_object_or_404 (store : Store) (tid user : String) :
    Option UploadTransaction :=
  store.find? (fun t => t.id == tid && t.user == user)

/-- Truthiness of `request.data.get(...)` for a string field: Python
treats a missing key and an empty string alike as falsy. -/
def falsyStr : Option String → Bool
  | none => true
  | some s => s == ""

/-- Truthiness of `request.data.get(...)` for a numeric field: missing
and zero are falsy. -/
def falsyInt : Option Int → Bool
  | none => true
  | some n => n == 0

/-- Responses `UploadInitView.post` can produce. -/
inductive InitResponse where
  | badRequest (error : String)
  | success (upload_url method : String) (headers : List (String × String))
      (transaction_id : String)
  | serverError (error : String)
deriving DecidableEq, Repr

/-- Result of one `UploadInitView.post` call: the HTTP response together
with the transaction table it leaves behind. -/
structure InitOutcome where
  response : InitResponse
  store : Store
deriving Repr

/-- Embeds `UploadInitView.post` of `core/views.py`: truthiness check on
`filename` and `file_size`, unconditional `objects.create`, then
credential issuance; on success the view re-derives the object key with
the same `uploads/{id}/{basename}` formula and saves it, on an exception
it deletes the created row and returns 500. -/
def UploadInitView_post (env : Env) (store : Store) (user : String)
    (filename : Option String) (file_size : Option Int)
    (content_type : Option String) (fresh_id : String) : InitOutcome :=
  let content_type := content_type.getD "application/octet-stream"
  if falsyStr filename || falsyInt file_size then
    ⟨.badRequest "filename and file_size are required", store⟩
  else
    let filename := filename.getD ""
    let file_size := file_size.getD 0
    let t : UploadTransaction :=
      { id := fresh_id, user := user, filename := filename,
        file_size := file_size, content_type := content_type,
        backend_used := env.storage_backend }
    let store := store ++ [t]
    match generate_upload_config env fresh_id filename content_type
        file_size with
    | .error e =>
        ⟨.serverError e, store.filter (fun u => u.id != fresh_id)⟩
    | .ok config =>
        let t := { t with
          object_key := "uploads/" ++ fresh_id ++ "/" ++ basename filename }
        let store := store.map (fun u => if u.id == fresh_id then t else u)
        ⟨.success config.url config.method config.headers fresh_id, store⟩

/-- Responses `UploadCompleteView.post` can produce.  `notFound` is the
generic Http404 of `get_object_or_404`; `storageNotFound` is the distinct
404 body built by the view itself; `serverError` is an exception escaping
the view (the `default` probe branch raises AttributeError). -/
inductive CompleteResponse where
  | badRequest (error : String)
  | notFound
  | success (status file_url : String)
  | storageNotFound (error : String)
  | serverError (error : String)
deriving DecidableEq, Repr

/-- Result of one `UploadCompleteView.post` call, with a count of how
many times `check_exists` was invoked during the call. -/
structure CompleteOutcome where
  response : CompleteResponse
  store : Store
  probe_invocations : Nat
deriving Repr

/-- Embeds `UploadCompleteView.post` of `core/views.py`: truthiness check
on `transaction_id`, owner-scoped lookup, then an unconditional existence
probe; a true probe marks the row COMPLETED and stamps `completed_at`, a
false probe returns the 404 storage body, and the row status is never
consulted. -/
def UploadCompleteView_post (env : Env) (store : Store) (user : String)
    (transaction_id : Option String) (now : Nat) : CompleteOutcome :=
  if falsyStr transaction_id then
    ⟨.badRequest "transaction_id required", store, 0⟩
  else
    let tid := transaction_id.getD ""
    match get_object_or_404 store tid user with
    | none => ⟨.notFound, store, 0⟩
    | some t =>
      match check_exists env t.object_key with
      | .error e => ⟨.serverError e, store, 1⟩
      | .ok true =>
          let t := { t with status := .COMPLETED, completed_at := some now }
          ⟨.success "success" t.object_key,
           store.map (fun u => if u.id == t.id then t else u), 1⟩
      | .ok false =>
          ⟨.storageNotFound "File not found in storage", store, 1⟩

/-- Responses `LocalUploadView.handle_upload` can produce. -/
inductive LocalUploadResponse where
  | forbidden (error : String)
  | notFound
  | ok (status : String)
deriving DecidableEq, Repr

/-- Result of one local upload: the HTTP response plus the contents of
`default_storage` (path, bytes) after the call. -/
structure LocalUploadOutcome where
  response : LocalUploadResponse
  files : List (String × List Nat)
deriving Repr

/-- Embeds `LocalUploadView.handle_upload` of `core/views.py`: 403 when
the configured backend is not `local`, owner-scoped lookup, then the
size comparison `if len(file_data) != transaction.file_size: pass` whose
body is literally `pass` (no effect), and an unconditional
`default_storage.save(transaction.object_key, ...)` returning 200. -/
def LocalUploadView_handle_upload (env : Env) (store : Store)
    (files : List (String × List Nat)) (user transaction_id : String)
    (body : List Nat) : LocalUploadOutcome :=
  if env.storage_backend != "local" then
    ⟨.forbidden "Local upload not enabled", files⟩
  else
    match get_object_or_404 store transaction_id user with
    | none => ⟨.notFound, files⟩
    | some t =>
      let _size_mismatch := (body.length : Int) != t.file_size
      ⟨.ok "uploaded", files ++ [(t.object_key, body)]⟩

/-! Helper lemmas about `basename` and derived keys. -/

/-- The basename of any path is slash-free: it is a suffix cut at the
last slash. -/
theorem basename_no_slash (p : String) : ∀ c ∈ (basename p).data, c ≠ '/' := by
  intro c hc
  simp only [basename] at hc
  have h1 : c ∈ p.data.reverse.takeWhile (fun c => c != '/') :=
    List.mem_reverse.mp hc
  have h2 := List.mem_takeWhile_imp h1
  simpa [bne_iff_ne] using h2

/-- Lists of the shape `t ++ slash :: c` with slash-free `c` determine
`t`: the distinguished slash is the last one in the list. -/
theorem append_slash_inj {c1 c2 : List Char} (h1 : '/' ∉ c1)
    (h2 : '/' ∉ c2) :
    ∀ {t1 t2 : List Char}, t1 ++ '/' :: c1 = t2 ++ '/' :: c2 → t1 = t2 := by
  intro t1
  induction t1 with
  | nil =>
    intro t2 h
    cases t2 with
    | nil => rfl
    | cons y ys =>
      exfalso
      simp only [List.nil_append, List.cons_append, List.cons.injEq] at h
      apply h1
      rw [h.2]
      exact List.mem_append_right ys (List.mem_cons_self _ _)
  | cons x xs ih =>
    intro t2 h
    cases t2 with
    | nil =>
      exfalso
      simp only [List.nil_append, List.cons_append, List.cons.injEq] at h
      apply h2
      rw [← h.2]
      exact List.mem_append_right xs (List.mem_cons_self _ _)
    | cons y ys =>
      simp only [List.cons_append, List.cons.injEq] at h
      rw [h.1, ih h.2]

/-- Keys derived for distinct transaction ids differ, whatever the two
filenames are: the id is delimited by the fixed prefix and the last
slash. -/
theorem _generate_key_inj {t1 t2 : String} (f1 f2 : String) (h : t1 ≠ t2) :
    _generate_key t1 f1 ≠ _generate_key t2 f2 := by
  intro heq
  apply h
  apply String.ext
  have hd := congrArg String.data heq
  simp only [_generate_key, String.data_append] at hd
  simp only [List.append_assoc, List.singleton_append] at hd
  have hd' := List.append_cancel_left hd
  exact append_slash_inj (fun hm => basename_no_slash f1 _ hm rfl)
    (fun hm => basename_no_slash f2 _ hm rfl) hd'

/-! Helper lemmas about the transaction table. -/

/-- Replacing rows by an id no row of the table carries is the
identity. -/
theorem map_replace_of_fresh (l : Store) (fid : String)
    (t' : UploadTransaction) (h : ∀ u ∈ l, u.id ≠ fid) :
    l.map (fun u => if u.id == fid then t' else u) = l := by
  induction l with
  | nil => rfl
  | cons x xs ih =>
    have hx : ¬ ((x.id == fid) = true) := by
      simp [beq_eq_false_iff_ne.mpr (h x (List.mem_cons_self _ _))]
    rw [List.map_cons, if_neg hx, ih (fun u hu => h u (List.mem_cons_of_mem _ hu))]

/-- Filtering out an id no row of the table carries is the identity. -/
theorem filter_ne_of_fresh (l : Store) (fid : String)
    (h : ∀ u ∈ l, u.id ≠ fid) :
    l.filter (fun u => u.id != fid) = l :=
  List.filter_eq_self.mpr (fun u hu => bne_iff_ne.mpr (h u hu))

/-- A lookup for an id no row of the table carries misses. -/
theorem find_none_of_fresh (l : Store) (fid user : String)
    (h : ∀ u ∈ l, u.id ≠ fid) :
    get_object_or_404 l fid user = none := by
  apply List.find?_eq_none.mpr
  intro x hx
  simp only [Bool.and_eq_true, beq_iff_eq, not_and]
  intro h1
  exact absurd h1 (h x hx)

/-! Claim theorems. -/

/-- C1: the claim says a probe error or an unimplemented backend branch
never lets check_exists / complete report success.  The code does the
opposite: every backend other than aws and default falls into the
literal `return True` of `check_exists`, so `complete` under the gcs
backend reports success on a Pending transaction although no probe ever
ran.  This theorem evaluates the code at that failing input. -/
theorem C1_unimplemented_probe_reports_success :
    check_exists { storage_backend := "gcs" } "uploads/t1/f.txt" = .ok true ∧
    (UploadCompleteView_post { storage_backend := "gcs" }
      [{ id := "t1", user := "alice", object_key := "uploads/t1/f.txt",
         filename := "f.txt", file_size := 10, content_type := "text/plain",
         status := .PENDING, backend_used := "gcs" }]
      "alice" (some "t1") 7).response
      = .success "success" "uploads/t1/f.txt" :=
  ⟨rfl, rfl⟩

/-- C2: with the default local backend, `check_exists` returns true for
every key whatever the environment holds, so `complete` moves a Pending
transaction to Completed even though no bytes were ever written for its
key. -/
theorem C2_local_backend_completes_blind (env : Env) (store : Store)
    (user tid : String) (now : Nat) (t : UploadTransaction)
    (hb : env.storage_backend = "local") (htid : tid ≠ "")
    (hfind : get_object_or_404 store tid user = some t)
    (hstatus : t.status = .PENDING) :
    (∀ key, check_exists env key = .ok true) ∧
    (UploadCompleteView_post env store user (some tid) now).response
      = .success "success" t.object_key ∧
    { t with status := .COMPLETED, completed_at := some now }
      ∈ (UploadCompleteView_post env store user (some tid) now).store := by
  have hchk : ∀ key, check_exists env key = .ok true := by
    intro key
    simp [check_exists, hb]
  have hfalsy : falsyStr (some tid) = false := by
    simp [falsyStr, htid]
  have ht : t ∈ store := List.mem_of_find?_eq_some hfind
  refine ⟨hchk, ?_⟩
  simp only [UploadCompleteView_post, hfalsy, Bool.false_eq_true, if_false,
    Option.getD_some, hfind, hchk t.object_key, true_and]
  have := List.mem_map_of_mem
    (fun u => if u.id == t.id then
      { t with status := .COMPLETED, completed_at := some now } else u) ht
  simpa using this

/-- Witness for C2 at a concrete table. -/
theorem C2_witness :
    (∀ key, check_exists { storage_backend := "local" } key = .ok true) ∧
    (UploadCompleteView_post { storage_backend := "local" }
      [{ id := "t1", user := "alice", object_key := "uploads/t1/f.txt",
         filename := "f.txt", file_size := 3, content_type := "text/plain",
         status := .PENDING, backend_used := "local" }]
      "alice" (some "t1") 9).response = .success "success" "uploads/t1/f.txt" ∧
    ({ id := "t1", user := "alice", object_key := "uploads/t1/f.txt",
       filename := "f.txt", file_size := 3, content_type := "text/plain",
       status := .COMPLETED, completed_at := some 9,
       backend_used := "local" } : UploadTransaction)
      ∈ (UploadCompleteView_post { storage_backend := "local" }
      [{ id := "t1", user := "alice", object_key := "uploads/t1/f.txt",
         filename := "f.txt", file_size := 3, content_type := "text/plain",
         status := .PENDING, backend_used := "local" }]
      "alice" (some "t1") 9).store :=
  C2_local_backend_completes_blind { storage_backend := "local" }
    [{ id := "t1", user := "alice", object_key := "uploads/t1/f.txt",
       filename := "f.txt", file_size := 3, content_type := "text/plain",
       status := .PENDING, backend_used := "local" }]
    "alice" "t1" 9
    { id := "t1", user := "alice", object_key := "uploads/t1/f.txt",
      filename := "f.txt", file_size := 3, content_type := "text/plain",
      status := .PENDING, backend_used := "local" }
    rfl (by decide) rfl rfl

/-- C3: when credential issuance fails inside initiate, the transaction
row created by the call is deleted before the 500 response: the table is
exactly what it was, and the fresh id is not loadable afterward. -/
theorem C3_issuance_failure_rolls_back (env : Env) (store : Store)
    (user fn : String) (fs : Int) (ct : Option String) (fresh_id e : String)
    (hfn : fn ≠ "") (hfs : fs ≠ 0)
    (hfresh : ∀ u ∈ store, u.id ≠ fresh_id)
    (hiss : generate_upload_config env fresh_id fn
      (ct.getD "application/octet-stream") fs = .error e) :
    (UploadInitView_post env store user (some fn) (some fs) ct
      fresh_id).response = .serverError e ∧
    (UploadInitView_post env store user (some fn) (some fs) ct
      fresh_id).store = store ∧
    get_object_or_404 (UploadInitView_post env store user (some fn)
      (some fs) ct fresh_id).store fresh_id user = none := by
  have hv1 : falsyStr (some fn) = false := by simp [falsyStr, hfn]
  have hv2 : falsyInt (some fs) = false := by simp [falsyInt, hfs]
  have hstore : (UploadInitView_post env store user (some fn) (some fs) ct
      fresh_id).store = store := by
    simp only [UploadInitView_post, hv1, hv2, Bool.or_self, Bool.false_eq_true,
      if_false, Option.getD_some, hiss]
    rw [List.filter_append, filter_ne_of_fresh store fresh_id hfresh]
    simp
  refine ⟨?_, hstore, ?_⟩
  · simp only [UploadInitView_post, hv1, hv2, Bool.or_self, Bool.false_eq_true,
      if_false, Option.getD_some, hiss]
  · rw [hstore]
    exact find_none_of_fresh store fresh_id user hfresh

/-- Witness for C3: an aws environment whose presigning call raises. -/
theorem C3_witness :
    (UploadInitView_post
      { storage_backend := "aws",
        aws_presign := fun _ _ _ => .error "SigningError" }
      [] "alice" (some "a.txt") (some 5) none "t1").response
      = .serverError "SigningError" ∧
    (UploadInitView_post
      { storage_backend := "aws",
        aws_presign := fun _ _ _ => .error "SigningError" }
      [] "alice" (some "a.txt") (some 5) none "t1").store = [] ∧
    get_object_or_404 (UploadInitView_post
      { storage_backend := "aws",
        aws_presign := fun _ _ _ => .error "SigningError" }
      [] "alice" (some "a.txt") (some 5) none "t1").store "t1" "alice"
      = none :=
  C3_issuance_failure_rolls_back
    { storage_backend := "aws",
      aws_presign := fun _ _ _ => .error "SigningError" }
    [] "alice" "a.txt" 5 none "t1" "SigningError" (by decide) (by decide)
    (by intro u hu; cases hu) rfl

/-- C4 counterexample: the claim says a second complete on an already
terminal transaction returns the same terminal result without re-probing.
On a Completed row the code probes again (one invocation, not zero) and,
when the probe now misses, answers with the storage 404 instead of the
original success. -/
theorem C4_counterexample :
    (UploadCompleteView_post { storage_backend := "aws" }
      [{ id := "t1", user := "alice", object_key := "uploads/t1/a.txt",
         filename := "a.txt", file_size := 10, content_type := "text/plain",
         status := .COMPLETED, completed_at := some 1,
         backend_used := "aws" }] "alice" (some "t1") 2).probe_invocations
      = 1 ∧
    (UploadCompleteView_post { storage_backend := "aws" }
      [{ id := "t1", user := "alice", object_key := "uploads/t1/a.txt",
         filename := "a.txt", file_size := 10, content_type := "text/plain",
         status := .COMPLETED, completed_at := some 1,
         backend_used := "aws" }] "alice" (some "t1") 2).response
      = .storageNotFound "File not found in storage" :=
  ⟨rfl, rfl⟩

/-- C4 amended: complete never consults the row status.  On a terminal
transaction it invokes the existence probe again (exactly once per call)
and its answer follows the fresh probe: success when the probe reports
the object, the storage 404 when it does not. -/
theorem C4_terminal_is_reprobed (env : Env) (store : Store)
    (user tid : String) (now : Nat) (t : UploadTransaction) (htid : tid ≠ "")
    (hfind : get_object_or_404 store tid user = some t)
    (hterm : t.status = .COMPLETED ∨ t.status = .FAILED) :
    (UploadCompleteView_post env store user (some tid) now).probe_invocations
      = 1 ∧
    (check_exists env t.object_key = .ok true →
      (UploadCompleteView_post env store user (some tid) now).response
        = .success "success" t.object_key) ∧
    (check_exists env t.object_key = .ok false →
      (UploadCompleteView_post env store user (some tid) now).response
        = .storageNotFound "File not found in storage") := by
  have hfalsy : falsyStr (some tid) = false := by
    simp [falsyStr, htid]
  simp only [UploadCompleteView_post, hfalsy, Bool.false_eq_true, if_false,
    Option.getD_some, hfind]
  rcases hck : check_exists env t.object_key with e | b
  · exact ⟨rfl, fun h => by simp [hck] at h, fun h => by simp [hck] at h⟩
  · cases b
    · exact ⟨rfl, fun h => by simp [hck] at h, fun _ => rfl⟩
    · exact ⟨rfl, fun _ => rfl, fun h => by simp [hck] at h⟩

/-- Witness for C4 amended: local backend, Completed row, probe true. -/
theorem C4_witness :
    (UploadCompleteView_post { storage_backend := "local" }
      [{ id := "t1", user := "alice", object_key := "uploads/t1/a.txt",
         filename := "a.txt", file_size := 10, content_type := "text/plain",
         status := .COMPLETED, completed_at := some 1,
         backend_used := "local" }] "alice" (some "t1") 2).probe_invocations
      = 1 ∧
    (check_exists { storage_backend := "local" } "uploads/t1/a.txt"
        = .ok true →
      (UploadCompleteView_post { storage_backend := "local" }
        [{ id := "t1", user := "alice", object_key := "uploads/t1/a.txt",
           filename := "a.txt", file_size := 10, content_type := "text/plain",
           status := .COMPLETED, completed_at := some 1,
           backend_used := "local" }] "alice" (some "t1") 2).response
        = .success "success" "uploads/t1/a.txt") ∧
    (check_exists { storage_backend := "local" } "uploads/t1/a.txt"
        = .ok false →
      (UploadCompleteView_post { storage_backend := "local" }
        [{ id := "t1", user := "alice", object_key := "uploads/t1/a.txt",
           filename := "a.txt", file_size := 10, content_type := "text/plain",
           status := .COMPLETED, completed_at := some 1,
           backend_used := "local" }] "alice" (some "t1") 2).response
        = .storageNotFound "File not found in storage") :=
  C4_terminal_is_reprobed { storage_backend := "local" }
    [{ id := "t1", user := "alice", object_key := "uploads/t1/a.txt",
       filename := "a.txt", file_size := 10, content_type := "text/plain",
       status := .COMPLETED, completed_at := some 1,
       backend_used := "local" }] "alice" "t1" 2
    { id := "t1", user := "alice", object_key := "uploads/t1/a.txt",
      filename := "a.txt", file_size := 10, content_type := "text/plain",
      status := .COMPLETED, completed_at := some 1, backend_used := "local" }
    (by decide) rfl (Or.inl rfl)

/-- C5: completing another owner's transaction answers with the generic
404 of the owner-scoped lookup, mutates nothing, never probes, and the
response is literally the one produced when no transaction with that id
exists at all. -/
theorem C5_ownership_isolation (env : Env) (store store2 : Store)
    (ownerA ownerB tid : String) (now : Nat)
    (hAB : ownerA ≠ ownerB) (htid : tid ≠ "")
    (howner : ∀ t ∈ store, t.id = tid → t.user = ownerA)
    (habsent : ∀ t ∈ store2, t.id ≠ tid) :
    (UploadCompleteView_post env store ownerB (some tid) now).response
      = .notFound ∧
    (UploadCompleteView_post env store ownerB (some tid) now).store = store ∧
    (UploadCompleteView_post env store ownerB (some tid) now).probe_invocations
      = 0 ∧
    (UploadCompleteView_post env store2 ownerB (some tid) now).response
      = (UploadCompleteView_post env store ownerB (some tid) now).response := by
  have hfalsy : falsyStr (some tid) = false := by
    simp [falsyStr, htid]
  have hmissA : get_object_or_404 store tid ownerB = none := by
    apply List.find?_eq_none.mpr
    intro x hx
    simp only [Bool.and_eq_true, beq_iff_eq, not_and]
    intro h1 h2
    exact hAB ((howner x hx h1 ▸ h2).symm ▸ rfl)
  have hmissB : get_object_or_404 store2 tid ownerB = none :=
    find_none_of_fresh store2 tid ownerB habsent
  simp only [UploadCompleteView_post, hfalsy, Bool.false_eq_true, if_false,
    Option.getD_some, hmissA, hmissB]
  exact ⟨trivial, trivial, trivial, trivial⟩

/-- Witness for C5 at a concrete pair of owners and tables. -/
theorem C5_witness :
    (UploadCompleteView_post { storage_backend := "local" }
      [{ id := "t1", user := "alice", object_key := "uploads/t1/a.txt",
         filename := "a.txt", file_size := 10, content_type := "text/plain",
         status := .PENDING, backend_used := "local" }]
      "bob" (some "t1") 3).response = .notFound ∧
    (UploadCompleteView_post { storage_backend := "local" }
      [{ id := "t1", user := "alice", object_key := "uploads/t1/a.txt",
         filename := "a.txt", file_size := 10, content_type := "text/plain",
         status := .PENDING, backend_used := "local" }]
      "bob" (some "t1") 3).store
      = [{ id := "t1", user := "alice", object_key := "uploads/t1/a.txt",
           filename := "a.txt", file_size := 10, content_type := "text/plain",
           status := .PENDING, backend_used := "local" }] ∧
    (UploadCompleteView_post { storage_backend := "local" }
      [{ id := "t1", user := "alice", object_key := "uploads/t1/a.txt",
         filename := "a.txt", file_size := 10, content_type := "text/plain",
         status := .PENDING, backend_used := "local" }]
      "bob" (some "t1") 3).probe_invocations = 0 ∧
    (UploadCompleteView_post { storage_backend := "local" } []
      "bob" (some "t1") 3).response
      = (UploadCompleteView_post { storage_backend := "local" }
      [{ id := "t1", user := "alice", object_key := "uploads/t1/a.txt",
         filename := "a.txt", file_size := 10, content_type := "text/plain",
         status := .PENDING, backend_used := "local" }]
      "bob" (some "t1") 3).response :=
  C5_ownership_isolation { storage_backend := "local" }
    [{ id := "t1", user := "alice", object_key := "uploads/t1/a.txt",
       filename := "a.txt", file_size := 10, content_type := "text/plain",
       status := .PENDING, backend_used := "local" }] []
    "alice" "bob" "t1" 3 (by decide) (by decide)
    (by intro t ht h1
        simp only [List.mem_singleton] at ht
        rw [ht])
    (by intro t ht; cases ht)

/-- C6: key derivation is a pure function, so re-deriving for the same
pair gives the identical key, and distinct transaction ids give distinct
keys whatever the two filenames are. -/
theorem C6_key_pure_and_injective (t1 t2 f1 f2 : String) (h : t1 ≠ t2) :
    _generate_key t1 f1 = _generate_key t1 f1 ∧
    _generate_key t1 f1 ≠ _generate_key t2 f2 :=
  ⟨rfl, _generate_key_inj f1 f2 h⟩

/-- Witness for C6 at concrete ids and filenames. -/
theorem C6_witness :
    _generate_key "t1" "a.txt" = _generate_key "t1" "a.txt" ∧
    _generate_key "t1" "a.txt" ≠ _generate_key "t2" "b.txt" :=
  C6_key_pure_and_injective "t1" "t2" "a.txt" "b.txt" (by decide)

/-- C7 counterexample: the claim says the derived key never contains a
path-traversal segment and an empty sanitization fails with InvalidInput.
The code only takes the basename: the filename `a/..` derives the key
`uploads/t1/..`, ending in a traversal segment, and the filename `a/`,
whose basename is empty, is accepted by initiate with a success response
instead of any InvalidInput failure. -/
theorem C7_counterexample :
    _generate_key "t1" "a/.." = "uploads/t1/.." ∧
    basename "a/" = "" ∧
    (UploadInitView_post {} [] "alice" (some "a/") (some 5) none
      "t2").response = .success "/api/upload/local/t2/" "PUT" [] "t2" :=
  ⟨rfl, rfl, rfl⟩

/-- C7 amended: the sanitization is exactly `os.path.basename`: the key
is always `uploads/tid/` followed by the slash-free basename of the
filename, so a filename with directory components like
`../../etc/passwd` flattens to `passwd`; but a basename of `..` is kept
verbatim and an empty basename is accepted rather than rejected. -/
theorem C7_basename_only_sanitization (tid fn : String) :
    _generate_key tid fn = "uploads/" ++ tid ++ "/" ++ basename fn ∧
    (∀ c ∈ (basename fn).data, c ≠ '/') ∧
    basename "../../etc/passwd" = "passwd" :=
  ⟨rfl, basename_no_slash fn, rfl⟩

/-- C8 counterexample: the claim says initiate rejects a negative size
with InvalidInput before persisting.  A request with size -5 passes the
truthiness check, persists a Pending row with file_size -5, and returns
success. -/
theorem C8_counterexample :
    (UploadInitView_post {} [] "alice" (some "a.txt") (some (-5)) none
      "t1").response = .success "/api/upload/local/t1/" "PUT" [] "t1" ∧
    (UploadInitView_post {} [] "alice" (some "a.txt") (some (-5)) none
      "t1").store
      = [{ id := "t1", user := "alice", object_key := "uploads/t1/a.txt",
           filename := "a.txt", file_size := -5,
           content_type := "application/octet-stream", status := .PENDING,
           completed_at := none, backend_used := "local" }] :=
  ⟨rfl, rfl⟩

/-- C8 amended: initiate only checks Python truthiness of filename and
file_size: a missing or empty filename, or a missing or zero size, is
rejected with the 400 body before any row is persisted; negative sizes
are not validated. -/
theorem C8_truthy_validation_before_persistence (env : Env) (store : Store)
    (user : String) (filename : Option String) (file_size : Option Int)
    (content_type : Option String) (fresh_id : String)
    (hval : (falsyStr filename || falsyInt file_size) = true) :
    (UploadInitView_post env store user filename file_size content_type
      fresh_id).response = .badRequest "filename and file_size are required" ∧
    (UploadInitView_post env store user filename file_size content_type
      fresh_id).store = store := by
  simp only [UploadInitView_post, hval, if_true]
  exact ⟨trivial, trivial⟩

/-- Witness for C8 amended: a request with no filename. -/
theorem C8_witness :
    (UploadInitView_post {} [] "alice" none (some 5) none "t1").response
      = .badRequest "filename and file_size are required" ∧
    (UploadInitView_post {} [] "alice" none (some 5) none "t1").store
      = [] :=
  C8_truthy_validation_before_persistence {} [] "alice" none (some 5) none
    "t1" rfl

/-- C9: the claim (and section 6 of the spec) requires a SizeMismatch
rejection when the received byte count differs from the declared size.
The code computes the comparison but its branch body is literally `pass`:
a 900-byte body against a declared 1024 is stored anyway and answered
with 200, silently keeping the truncated upload.  This theorem evaluates
the code at that failing input. -/
theorem C9_size_mismatch_still_stored :
    ((List.replicate 900 (0 : Nat)).length : Int) ≠ (1024 : Int) ∧
    (LocalUploadView_handle_upload {}
      [{ id := "t1", user := "alice", object_key := "uploads/t1/a.bin",
         filename := "a.bin", file_size := 1024,
         content_type := "application/octet-stream", status := .PENDING,
         backend_used := "local" }]
      [] "alice" "t1" (List.replicate 900 0)).response = .ok "uploaded" ∧
    (LocalUploadView_handle_upload {}
      [{ id := "t1", user := "alice", object_key := "uploads/t1/a.bin",
         filename := "a.bin", file_size := 1024,
         content_type := "application/octet-stream", status := .PENDING,
         backend_used := "local" }]
      [] "alice" "t1" (List.replicate 900 0)).files
      = [("uploads/t1/a.bin", List.replicate 900 0)] := by
  refine ⟨?_, rfl, rfl⟩
  rw [List.length_replicate]
  decide

/-- C10: a successful initiate persists exactly one new row, carrying
status Pending and an object key equal to the deterministic derivation
for the fresh transaction id and filename, and loading the fresh id as
the caller returns that row. -/
theorem C10_init_persists_pending_derived_key (env : Env) (store : Store)
    (user fn : String) (fs : Int) (ct : Option String) (fresh_id : String)
    (config : UploadConfig) (hfn : fn ≠ "") (hfs : fs ≠ 0)
    (hfresh : ∀ u ∈ store, u.id ≠ fresh_id)
    (hiss : generate_upload_config env fresh_id fn
      (ct.getD "application/octet-stream") fs = .ok config) :
    (UploadInitView_post env store user (some fn) (some fs) ct
      fresh_id).response
      = .success config.url config.method config.headers fresh_id ∧
    (UploadInitView_post env store user (some fn) (some fs) ct
      fresh_id).store
      = store ++ [{ id := fresh_id, user := user,
                    object_key := _generate_key fresh_id fn, filename := fn,
                    file_size := fs,
                    content_type := ct.getD "application/octet-stream",
                    status := .PENDING, completed_at := none,
                    backend_used := env.storage_backend }] ∧
    get_object_or_404 (UploadInitView_post env store user (some fn)
      (some fs) ct fresh_id).store fresh_id user
      = some { id := fresh_id, user := user,
               object_key := _generate_key fresh_id fn, filename := fn,
               file_size := fs,
               content_type := ct.getD "application/octet-stream",
               status := .PENDING, completed_at := none,
               backend_used := env.storage_backend } := by
  have hv1 : falsyStr (some fn) = false := by simp [falsyStr, hfn]
  have hv2 : falsyInt (some fs) = false := by simp [falsyInt, hfs]
  have hstore : (UploadInitView_post env store user (some fn) (some fs) ct
      fresh_id).store
      = store ++ [{ id := fresh_id, user := user,
                    object_key := _generate_key fresh_id fn, filename := fn,
                    file_size := fs,
                    content_type := ct.getD "application/octet-stream",
                    status := .PENDING, completed_at := none,
                    backend_used := env.storage_backend }] := by
    simp only [UploadInitView_post, hv1, hv2, Bool.or_self, Bool.false_eq_true,
      if_false, Option.getD_some, hiss]
    rw [List.map_append, map_replace_of_fresh store fresh_id _ hfresh]
    simp [_generate_key]
  refine ⟨?_, hstore, ?_⟩
  · simp only [UploadInitView_post, hv1, hv2, Bool.or_self, Bool.false_eq_true,
      if_false, Option.getD_some, hiss]
  · rw [hstore]
    unfold get_object_or_404
    rw [List.find?_append, List.find?_eq_none.mpr (fun x hx => by
      simp only [Bool.and_eq_true, beq_iff_eq, not_and]
      intro h1
      exact absurd h1 (hfresh x hx))]
    simp

/-- Witness for C10: a local-backend initiate on an empty table. -/
theorem C10_witness :
    (UploadInitView_post {} [] "alice" (some "a.txt") (some 5) none
      "t1").response = .success "/api/upload/local/t1/" "PUT" [] "t1" ∧
    (UploadInitView_post {} [] "alice" (some "a.txt") (some 5) none
      "t1").store
      = [] ++ [{ id := "t1", user := "alice",
                 object_key := _generate_key "t1" "a.txt",
                 filename := "a.txt", file_size := 5,
                 content_type := "application/octet-stream",
                 status := .PENDING, completed_at := none,
                 backend_used := "local" }] ∧
    get_object_or_404 (UploadInitView_post {} [] "alice" (some "a.txt")
      (some 5) none "t1").store "t1" "alice"
      = some { id := "t1", user := "alice",
               object_key := _generate_key "t1" "a.txt", filename := "a.txt",
               file_size := 5, content_type := "application/octet-stream",
               status := .PENDING, completed_at := none,
               backend_used := "local" } :=
  C10_init_persists_pending_derived_key {} [] "alice" "a.txt" 5 none "t1"
    { url := "/api/upload/local/t1/", method := "PUT" }
    (by decide) (by decide) (by intro u hu; cases hu) rfl

end Upload
